import Mathlib

/-!
Verification of the SmartHire resume-analysis application.

The development embeds, as Lean functions, the frontend logic of
`frontend/src/App.jsx` (file selection, the analyze request workflow and the
score-styling helpers) and the backend match-analysis core described by the
specification (keyword fallback analyzer, response validator/normalizer and
the tiered analysis orchestrator).  The backend source `backend/main.py` is
not part of the corpus, so its components are modelled from the specification
text; each such definition is marked in its doc comment.
-/

namespace SmartHire

/-! Frontend data model, from `frontend/src/App.jsx`. -/

/-- The analysis object the frontend stores after a successful request:
the five fields of the `ai_analysis` JSON payload. -/
structure AiAnalysis where
  match_score : Int
  key_strengths : List String
  missing_skills : List String
  summary : String
  email_draft : String
deriving DecidableEq, Repr

/-- A browser `File` object, reduced to the fields App.jsx reads:
`name` and the MIME `type`. -/
structure FileObj where
  name : String
  type : String
deriving DecidableEq, Repr

/-- The React component state of `App`: the five `useState` cells that the
claims are about (`copied` is omitted; no claim mentions it). -/
structure AppState where
  resumeFile : Option FileObj
  jobDescription : String
  loading : Bool
  error : Option String
  analysisResult : Option AiAnalysis
deriving DecidableEq, Repr

/-- JavaScript `String.prototype.trim`: strip leading and trailing
whitespace characters. -/
def jsTrim (s : String) : String :=
  String.mk (((s.data.dropWhile Char.isWhitespace).reverse.dropWhile
    Char.isWhitespace).reverse)

/-- Embedding of `handleFileChange` (App.jsx lines 190-206 and 1312-1321):
the offered file is `e.target.files?.[0]`.  A PDF is accepted and clears the
error; anything else sets an error message and resets `resumeFile`. -/
def handleFileChange (file : Option FileObj) (s : AppState) : AppState :=
  match file with
  | some f =>
    if f.type = "application/pdf" then
      { s with resumeFile := some f, error := none }
    else
      { s with error := some "Please select a valid PDF file",
               resumeFile := none }
  | none =>
    { s with error := some "Please select a valid PDF file",
             resumeFile := none }

/-- Embedding of `handleDrop` (App.jsx lines 239-263 and 1335-1348): same
validation as `handleFileChange` on `e.dataTransfer.files?.[0]`, with a
different error message. -/
def handleDrop (file : Option FileObj) (s : AppState) : AppState :=
  match file with
  | some f =>
    if f.type = "application/pdf" then
      { s with resumeFile := some f, error := none }
    else
      { s with error := some "Please drop a valid PDF file",
               resumeFile := none }
  | none =>
    { s with error := some "Please drop a valid PDF file",
             resumeFile := none }

/-- The HTTP response body shape the frontend consumes on success:
`response.data.ai_analysis`. -/
structure HttpResponse where
  ai_analysis : AiAnalysis
deriving DecidableEq, Repr

/-- Outcome of the axios POST as the frontend observes it: either a
successful response, or a thrown error carrying the optional backend
`detail` string (`err.response?.data?.detail`). -/
inductive HttpOutcome where
  | success (resp : HttpResponse)
  | failure (detail : Option String)
deriving DecidableEq, Repr

/-- JavaScript `a || b` on an optional string `a`: the fallback is used when
`a` is absent or empty (falsy). -/
def jsOrElse (d : Option String) (fallback : String) : String :=
  match d with
  | some s => if s = "" then fallback else s
  | none => fallback

/-- Embedding of `analyzeCandidate` (App.jsx lines 275-334 and 1359-1396).
The input guard (`!resumeFile || !jobDescription.trim()`) sets an error and
returns before the HTTP request; otherwise the request runs with outcome
`o`, and the `try`/`catch`/`finally` updates the state.  The returned `Bool`
records whether the HTTP request was issued. -/
def analyzeCandidate (s : AppState) (o : HttpOutcome) : AppState × Bool :=
  if s.resumeFile = none ∨ jsTrim s.jobDescription = "" then
    ({ s with error := some "Please upload a resume and enter a job description" },
     false)
  else
    match o with
    | .success resp =>
      ({ s with loading := false, error := none,
                analysisResult := some resp.ai_analysis }, true)
    | .failure detail =>
      ({ s with loading := false,
                error := some (jsOrElse detail "Failed to analyze resume. Please try again."),
                analysisResult := none }, true)

/-- Embedding of `getMatchScoreColor` (App.jsx lines 365-370 and 1414-1418). -/
def getMatchScoreColor (score : Int) : String :=
  if score ≥ 75 then "text-green-500"
  else if score ≥ 50 then "text-yellow-500"
  else "text-red-500"

/-- Embedding of `getMatchScoreBgColor` (App.jsx lines 377-383 and 1420-1424). -/
def getMatchScoreBgColor (score : Int) : String :=
  if score ≥ 75 then "bg-green-500/10"
  else if score ≥ 50 then "bg-yellow-500/10"
  else "bg-red-500/10"

/-- Embedding of `getMatchScoreBorderColor` (App.jsx lines 389-394 and
1426-1430). -/
def getMatchScoreBorderColor (score : Int) : String :=
  if score ≥ 75 then "border-green-500"
  else if score ≥ 50 then "border-yellow-500"
  else "border-red-500"

/-! Backend data model.  The backend source `backend/main.py` is absent from
the corpus, so the definitions below are modelled from the specification
(sections 3-4 and 7 of the design document). -/

/-- Modelled from the spec: which tier produced the result
(`sourceTier: enum {PRIMARY, BACKUP, FALLBACK}`, spec section 3). -/
inductive SourceTier where
  | PRIMARY
  | BACKUP
  | FALLBACK
deriving DecidableEq, Repr

/-- Modelled from the spec: the canonical `AnalysisResult` record
(spec section 3). -/
structure AnalysisResult where
  matchScore : Int
  keyStrengths : List String
  missingSkills : List String
  summary : String
  emailDraft : String
  sourceTier : SourceTier
deriving DecidableEq, Repr

/-- Modelled from the spec: the `AnalysisRequest` record (spec section 3). -/
structure AnalysisRequest where
  resumeText : String
  jobDescription : String
deriving DecidableEq, Repr

/-- Modelled from the spec: the stop-word list the tokenizer removes
(spec section 4.4 step 1 only says "stop-words removed"; this is a small
representative set of English function words). -/
def stopWords : List String :=
  ["the", "and", "a", "an", "of", "to", "in", "for", "with", "on", "at",
   "by", "is", "are", "be", "as", "or", "from", "that", "this"]

/-- Split a character stream into lowercased maximal alphanumeric words.
The first accumulator argument collects the current word in reverse. -/
def splitWordsAux : List Char → List Char → List String
  | [], acc => if acc.isEmpty then [] else [String.mk acc.reverse]
  | c :: cs, acc =>
    if c.isAlphanum then splitWordsAux cs (c.toLower :: acc)
    else if acc.isEmpty then splitWordsAux cs []
    else String.mk acc.reverse :: splitWordsAux cs []

/-- Lowercased alphanumeric words of a string, in order of appearance. -/
def splitWords (s : String) : List String :=
  splitWordsAux s.data []

/-- Deduplicate keeping the first occurrence of each word; the accumulator
holds the kept words in reverse. -/
def dedupFirstAux : List String → List String → List String
  | [], acc => acc.reverse
  | w :: ws, acc =>
    if w ∈ acc then dedupFirstAux ws acc else dedupFirstAux ws (w :: acc)

/-- Deduplicate a word list, keeping first occurrences in order. -/
def dedupFirst (ws : List String) : List String :=
  dedupFirstAux ws []

/-- Modelled from the spec: tokenization of a text into a vocabulary of
lowercased words with stop-words removed, ordered by first appearance
(spec section 4.4 steps 1-2). -/
def tokenize (s : String) : List String :=
  dedupFirst ((splitWords s).filter (fun w => w ∉ stopWords))

/-- Modelled from the spec: the job-description vocabulary
(spec section 4.4 step 1). -/
def jobVocabulary (jd : String) : List String :=
  tokenize jd

/-- Modelled from the spec: the vocabulary terms found in both texts,
ordered by first appearance in the job description (spec section 4.4
step 4). -/
def intersectionTerms (resume jd : String) : List String :=
  (jobVocabulary jd).filter (fun w => w ∈ tokenize resume)

/-- Modelled from the spec: the vocabulary terms absent from the resume
(spec section 4.4 step 5). -/
def missingTerms (resume jd : String) : List String :=
  (jobVocabulary jd).filter (fun w => w ∉ tokenize resume)

/-- Rounded percentage `round (100 * i / v)` on naturals (round half up);
`0` when the vocabulary is empty. -/
def roundPct (i v : Nat) : Nat :=
  if v = 0 then 0 else (200 * i + v) / (2 * v)

namespace KeywordFallbackAnalyzer

/-- Modelled from the spec: the fallback match score (spec section 4.4
step 3): `round (100 * |intersection| / |jobVocabulary|)`, raised to at
least 60 when the raw overlap ratio is at least one half, then clamped
into `[10, 95]`. -/
def fallbackScore (resume jd : String) : Nat :=
  let v := (jobVocabulary jd).length
  let i := (intersectionTerms resume jd).length
  let base := roundPct i v
  let floored := if v ≤ 2 * i then max base 60 else base
  min 95 (max 10 floored)

/-- Templated alignment phrase for the three score tiers (spec section 4.4
step 6). -/
def alignmentPhrase (score : Nat) : String :=
  if 75 ≤ score then "strong alignment"
  else if 50 ≤ score then "moderate alignment"
  else "limited alignment"

/-- Modelled from the spec: the templated summary sentence, parameterized
by score tier plus the top missing skills (spec section 4.4 step 6). -/
def fallbackSummary (resume jd : String) : String :=
  let gaps := (missingTerms resume jd).take 2
  "Keyword analysis indicates " ++ alignmentPhrase (fallbackScore resume jd) ++
    " with the role requirements." ++
    (if gaps.isEmpty then ""
     else " Notable gaps: " ++ String.intercalate ", " gaps ++ ".")

/-- Modelled from the spec: the templated outreach email whose tone branches
on the same three score tiers (spec section 4.4 step 7). -/
def fallbackEmailDraft (resume jd : String) : String :=
  let score := fallbackScore resume jd
  if 75 ≤ score then
    "Dear Candidate, thank you for applying. We were impressed by your background and would like to invite you to an interview."
  else if 50 ≤ score then
    "Dear Candidate, thank you for applying. Your profile shows promise and we would like to learn more about your experience."
  else
    "Dear Candidate, thank you for applying. After careful review we will not be moving forward at this time."

/-- Modelled from the spec: `KeywordFallbackAnalyzer.analyze`, the
deterministic AI-free safety-net analyzer (spec section 4.4). -/
def analyze (resume jd : String) : AnalysisResult :=
  { matchScore := (fallbackScore resume jd : Int)
    keyStrengths := (intersectionTerms resume jd).take 5
    missingSkills := (missingTerms resume jd).take 5
    summary := fallbackSummary resume jd
    emailDraft := fallbackEmailDraft resume jd
    sourceTier := .FALLBACK }

end KeywordFallbackAnalyzer

/-! Validator / normalizer.  Modelled from the spec (section 4.3): the raw
provider text is represented by its structured-decode outcome, `none` when
the payload is undecodable and otherwise a flat record whose five fields may
each be individually missing. -/

/-- Modelled from the spec: the decoded shape of a provider payload before
repair (spec section 4.3 step 1): a flat record with the five canonical
fields, each possibly absent. -/
structure RawRecord where
  matchScore : Option Int
  keyStrengths : Option (List String)
  missingSkills : Option (List String)
  summary : Option String
  emailDraft : Option String
deriving DecidableEq, Repr

/-- Modelled from the spec: the validator failure for a fully undecodable
payload (spec section 4.3). -/
inductive ParseFailure where
  | malformedResponse
deriving DecidableEq, Repr

/-- Clamp an integer score into `[0, 100]` (spec section 4.3 step 2). -/
def clampScore (n : Int) : Int :=
  min 100 (max 0 n)

/-- Repair a skill list: trim entries, drop empties, cap length at 10
(spec section 4.3 step 2). -/
def repairList (l : Option (List String)) : List String :=
  (((l.getD []).map jsTrim).filter (fun w => w ≠ "")).take 10

/-- Repair the summary: trim and substitute a generic placeholder when empty
(spec section 4.3 step 2). -/
def repairSummary (s : Option String) : String :=
  let t := jsTrim (s.getD "")
  if t = "" then "Analysis completed; see the detailed fields for specifics."
  else t

/-- Repair the email draft: trim and substitute a minimal templated draft by
score tier when empty (spec sections 4.3 step 2 and 4.4 step 7). -/
def repairEmailDraft (s : Option String) (score : Int) : String :=
  let t := jsTrim (s.getD "")
  if t = "" then
    (if 75 ≤ score then
      "Dear Candidate, we would like to invite you to an interview."
     else if 50 ≤ score then
      "Dear Candidate, we are interested in learning more about your experience."
     else
      "Dear Candidate, thank you for your interest in the role.")
  else t

/-- Modelled from the spec: `normalize(rawText) -> AnalysisResult |
ParseFailure` (spec section 4.3): a fully undecodable payload is a hard
`ParseFailure`; any decodable record is repaired field by field, never
rejected.  The `sourceTier` is set by the orchestrator afterwards. -/
def normalize (raw : Option RawRecord) : Except ParseFailure AnalysisResult :=
  match raw with
  | none => .error .malformedResponse
  | some r =>
    let score := clampScore (r.matchScore.getD 0)
    .ok { matchScore := score
          keyStrengths := repairList r.keyStrengths
          missingSkills := repairList r.missingSkills
          summary := repairSummary r.summary
          emailDraft := repairEmailDraft r.emailDraft score
          sourceTier := .PRIMARY }

/-! Provider clients and the analysis orchestrator, modelled from the spec
(sections 4.2 and 4.5). -/

/-- Modelled from the spec: the typed provider failures
(spec section 3, `ProviderOutcome`). -/
inductive FailureKind where
  | timeoutFailure
  | authFailure
  | rateLimitFailure
  | malformedResponseFailure
  | unknownFailure
deriving DecidableEq, Repr

/-- Modelled from the spec: a `ProviderOutcome` (spec section 3): either a
raw payload, represented by its decode outcome, or a typed failure. -/
inductive ProviderOutcome where
  | payload (raw : Option RawRecord)
  | failure (kind : FailureKind)
deriving DecidableEq, Repr

/-- Modelled from the spec: a `ProviderClient` (spec section 4.2): an
optional configured credential, plus the outcome its single external call
would produce if invoked. -/
structure ProviderClient where
  credential : Option String
  outcome : ProviderOutcome
deriving DecidableEq, Repr

/-- Modelled from the spec: the availability check of a provider client
(spec section 4.2; confirmed by the repository fix report on
`GeminiAIClient.is_available`: available only when the credential is set). -/
def is_available (c : ProviderClient) : Bool :=
  c.credential.isSome

/-- The provider environment of one orchestrated analysis: the Tier-1 and
Tier-2 clients. -/
structure Env where
  primary : ProviderClient
  backup : ProviderClient
deriving DecidableEq, Repr

/-- Modelled from the spec: the orchestrator states
(spec section 4.5). -/
inductive OrchState where
  | START
  | TRY_PRIMARY
  | TRY_BACKUP
  | TRY_FALLBACK
  | DONE
deriving DecidableEq, Repr

/-- The running configuration of the orchestrator state machine: current
state, result produced so far, and the list of provider tiers actually
invoked (the call log). -/
structure RunState where
  state : OrchState
  result : Option AnalysisResult
  calls : List SourceTier
deriving DecidableEq, Repr

/-- Modelled from the spec: one provider attempt as the orchestrator sees it
(spec sections 4.2-4.5): invoke the client, validate a payload through
`normalize`, tag a success with the tier; any typed failure or
`ParseFailure` yields `none` (advance to the next tier). -/
def tryProvider (c : ProviderClient) (tier : SourceTier) :
    Option AnalysisResult :=
  match c.outcome with
  | .payload raw =>
    match normalize raw with
    | .ok r => some { r with sourceTier := tier }
    | .error _ => none
  | .failure _ => none

/-- Modelled from the spec: one transition of the orchestrator state machine
(spec section 4.5): an unavailable tier is skipped without a call; a failed
or malformed attempt advances to the next tier; a success jumps to `DONE`;
the fallback always succeeds. -/
def step (env : Env) (req : AnalysisRequest) : RunState → RunState
  | ⟨.START, _, calls⟩ => ⟨.TRY_PRIMARY, none, calls⟩
  | ⟨.TRY_PRIMARY, _, calls⟩ =>
    if is_available env.primary then
      match tryProvider env.primary .PRIMARY with
      | some r => ⟨.DONE, some r, calls ++ [.PRIMARY]⟩
      | none => ⟨.TRY_BACKUP, none, calls ++ [.PRIMARY]⟩
    else ⟨.TRY_BACKUP, none, calls⟩
  | ⟨.TRY_BACKUP, _, calls⟩ =>
    if is_available env.backup then
      match tryProvider env.backup .BACKUP with
      | some r => ⟨.DONE, some r, calls ++ [.BACKUP]⟩
      | none => ⟨.TRY_FALLBACK, none, calls ++ [.BACKUP]⟩
    else ⟨.TRY_FALLBACK, none, calls⟩
  | ⟨.TRY_FALLBACK, _, calls⟩ =>
    ⟨.DONE,
     some (KeywordFallbackAnalyzer.analyze req.resumeText req.jobDescription),
     calls⟩
  | ⟨.DONE, r, calls⟩ => ⟨.DONE, r, calls⟩

/-- The full run of the orchestrator state machine: four transitions from
`START` traverse the longest path `START → TRY_PRIMARY → TRY_BACKUP →
TRY_FALLBACK → DONE`. -/
def run (env : Env) (req : AnalysisRequest) : RunState :=
  step env req (step env req (step env req (step env req ⟨.START, none, []⟩)))

/-- Modelled from the spec: the only caller-visible error class
(spec section 7). -/
inductive OrchError where
  | invalidInput
deriving DecidableEq, Repr

namespace Orchestrator

/-- Modelled from the spec: `Orchestrator.analyze` (spec sections 4.5 and 7):
empty input fails fast with `InvalidInput` before any state transition;
otherwise the state machine runs to completion and its result is returned.
The second component is the log of provider tiers actually invoked. -/
def analyze (env : Env) (req : AnalysisRequest) :
    Except OrchError AnalysisResult × List SourceTier :=
  if req.resumeText = "" ∨ req.jobDescription = "" then
    (.error .invalidInput, [])
  else
    let fin := run env req
    (.ok (fin.result.getD
      (KeywordFallbackAnalyzer.analyze req.resumeText req.jobDescription)),
     fin.calls)

end Orchestrator

/-! HTTP serialization of the analysis, modelled from the spec (section 6)
and the response example documented in the repository README. -/

/-- Modelled from the spec: JSON values, enough to express the response
body of the analyze endpoint. -/
inductive JValue where
  | jnum (n : Int)
  | jstr (s : String)
  | jlist (xs : List String)
  | jobj (fields : List (String × JValue))

/-- Modelled from the spec: serialization of an `AnalysisResult` into the
`ai_analysis` JSON object (spec section 6): exactly the five snake_case
fields; `sourceTier` is consumed only for logging and is not serialized. -/
def serializeAnalysis (r : AnalysisResult) : List (String × JValue) :=
  [("match_score", .jnum r.matchScore),
   ("key_strengths", .jlist r.keyStrengths),
   ("missing_skills", .jlist r.missingSkills),
   ("summary", .jstr r.summary),
   ("email_draft", .jstr r.emailDraft)]

/-- Modelled from the spec: the JSON response body of the analyze endpoint
(README example in the corpus): filename, text length, extracted text, and
the analysis under the `ai_analysis` key. -/
def serializeResponse (filename : String) (textLength : Nat)
    (extracted : String) (r : AnalysisResult) : List (String × JValue) :=
  [("filename", .jstr filename),
   ("text_length", .jnum (textLength : Int)),
   ("extracted_text", .jstr extracted),
   ("ai_analysis", .jobj (serializeAnalysis r))]

/-- Look up a key in a serialized JSON object. -/
def jsonLookup (key : String) : List (String × JValue) → Option JValue
  | [] => none
  | (k, v) :: rest => if k = key then some v else jsonLookup key rest

/-! Helper lemmas shared by the claim theorems. -/

/-- The fallback score is always within the clamp band `[10, 95]`. -/
lemma fallbackScore_mem_band (resume jd : String) :
    10 ≤ KeywordFallbackAnalyzer.fallbackScore resume jd ∧
    KeywordFallbackAnalyzer.fallbackScore resume jd ≤ 95 := by
  simp only [KeywordFallbackAnalyzer.fallbackScore, min_def, max_def]
  split_ifs <;> omega

/-- The generous-scoring floor: overlap ratio at least one half forces a
fallback score of at least 60. -/
lemma fallbackScore_floor (resume jd : String)
    (h : (jobVocabulary jd).length ≤ 2 * (intersectionTerms resume jd).length) :
    60 ≤ KeywordFallbackAnalyzer.fallbackScore resume jd := by
  simp only [KeywordFallbackAnalyzer.fallbackScore, if_pos h, min_def, max_def]
  split_ifs <;> omega

/-- The clamped validator score is always within `[0, 100]`. -/
lemma clampScore_mem_band (n : Int) :
    0 ≤ clampScore n ∧ clampScore n ≤ 100 := by
  unfold clampScore
  omega

/-- The fallback analyzer reports its own tier and the band-clamped score. -/
lemma fallback_analyze_fields (resume jd : String) :
    (KeywordFallbackAnalyzer.analyze resume jd).sourceTier = .FALLBACK ∧
    (KeywordFallbackAnalyzer.analyze resume jd).matchScore =
      (KeywordFallbackAnalyzer.fallbackScore resume jd : Int) := by
  exact ⟨rfl, rfl⟩

/-- Fallback match scores, viewed as integers, lie in `[0, 100]`. -/
lemma fallback_analyze_score_band (resume jd : String) :
    0 ≤ (KeywordFallbackAnalyzer.analyze resume jd).matchScore ∧
    (KeywordFallbackAnalyzer.analyze resume jd).matchScore ≤ 100 := by
  have h := fallbackScore_mem_band resume jd
  have heq : (KeywordFallbackAnalyzer.analyze resume jd).matchScore =
      (KeywordFallbackAnalyzer.fallbackScore resume jd : Int) := rfl
  rw [heq]
  omega

/-- A successful normalization yields a score in `[0, 100]`. -/
lemma normalize_score_band (raw : Option RawRecord) (r : AnalysisResult)
    (h : normalize raw = .ok r) : 0 ≤ r.matchScore ∧ r.matchScore ≤ 100 := by
  cases raw with
  | none => simp [normalize] at h
  | some rec =>
    simp only [normalize, Except.ok.injEq] at h
    have := clampScore_mem_band (rec.matchScore.getD 0)
    rw [← h]
    exact this

/-- A successful provider attempt carries the attempted tier and a score in
`[0, 100]`. -/
lemma tryProvider_spec (c : ProviderClient) (tier : SourceTier)
    (r : AnalysisResult) (h : tryProvider c tier = some r) :
    r.sourceTier = tier ∧ 0 ≤ r.matchScore ∧ r.matchScore ≤ 100 := by
  cases hc : c.outcome with
  | failure k => simp [tryProvider, hc] at h
  | payload raw =>
    cases hn : normalize raw with
    | error e => simp [tryProvider, hc, hn] at h
    | ok r0 =>
      simp only [tryProvider, hc, hn, Option.some.injEq] at h
      have hb := normalize_score_band raw r0 hn
      rw [← h]
      exact ⟨rfl, hb⟩

/-- The orchestrator state machine always terminates in `DONE` holding a
result whose match score lies in `[0, 100]`. -/
lemma run_inv (env : Env) (req : AnalysisRequest) :
    (run env req).state = OrchState.DONE ∧
    ∃ r, (run env req).result = some r ∧
      0 ≤ r.matchScore ∧ r.matchScore ≤ 100 := by
  unfold run
  cases hp : is_available env.primary with
  | true =>
    cases ht : tryProvider env.primary .PRIMARY with
    | some r =>
      have hb := tryProvider_spec env.primary .PRIMARY r ht
      simp [step, hp, ht]
      exact hb.2
    | none =>
      cases hb : is_available env.backup with
      | true =>
        cases ht2 : tryProvider env.backup .BACKUP with
        | some r2 =>
          have hb2 := tryProvider_spec env.backup .BACKUP r2 ht2
          simp [step, hp, hb, ht, ht2]
          exact hb2.2
        | none =>
          simp [step, hp, hb, ht, ht2]
          exact fallback_analyze_score_band req.resumeText req.jobDescription
      | false =>
        simp [step, hp, hb, ht]
        exact fallback_analyze_score_band req.resumeText req.jobDescription
  | false =>
    cases hb : is_available env.backup with
    | true =>
      cases ht2 : tryProvider env.backup .BACKUP with
      | some r2 =>
        have hb2 := tryProvider_spec env.backup .BACKUP r2 ht2
        simp [step, hp, hb, ht2]
        exact hb2.2
      | none =>
        simp [step, hp, hb, ht2]
        exact fallback_analyze_score_band req.resumeText req.jobDescription
    | false =>
      simp [step, hp, hb]
      exact fallback_analyze_score_band req.resumeText req.jobDescription

/-- With no credential configured on either tier, the state machine skips
both provider tiers without a call and lands on the fallback result. -/
lemma run_no_credentials (env : Env) (req : AnalysisRequest)
    (h1 : env.primary.credential = none) (h2 : env.backup.credential = none) :
    run env req =
      ⟨OrchState.DONE,
       some (KeywordFallbackAnalyzer.analyze req.resumeText req.jobDescription),
       []⟩ := by
  simp [run, step, is_available, h1, h2]

/-! Claim theorems. -/

/-- C1: for every provider environment and non-empty inputs,
`Orchestrator.analyze` drives the state machine to `DONE` and returns a
complete `AnalysisResult`; no provider-side failure is ever surfaced as an
error, and a malformed (undecodable) Tier-1 payload merely advances the
machine to the backup tier. -/
theorem orchestrator_absorbs_provider_failures (env : Env)
    (req : AnalysisRequest)
    (hr : req.resumeText ≠ "") (hj : req.jobDescription ≠ "") :
    (run env req).state = OrchState.DONE ∧
    (∃ r, (Orchestrator.analyze env req).1 = .ok r) ∧
    (∀ e, (Orchestrator.analyze env req).1 ≠ .error e) ∧
    (is_available env.primary = true → env.primary.outcome = .payload none →
      (step env req (step env req ⟨.START, none, []⟩)).state =
        OrchState.TRY_BACKUP) := by
  obtain ⟨hs, r, hres, _, _⟩ := run_inv env req
  have hcond : ¬(req.resumeText = "" ∨ req.jobDescription = "") := by
    push_neg
    exact ⟨hr, hj⟩
  have hok : (Orchestrator.analyze env req).1 = .ok r := by
    unfold Orchestrator.analyze
    rw [if_neg hcond]
    simp [hres]
  refine ⟨hs, ⟨r, hok⟩, ?_, ?_⟩
  · intro e he
    rw [hok] at he
    exact Except.noConfusion he
  · intro hav hmal
    simp [step, hav, tryProvider, hmal, normalize]

/-- C1 witness: an environment whose Tier-1 payload is undecodable and whose
Tier-2 call times out still reaches `DONE`, and after two transitions the
machine sits at `TRY_BACKUP`. -/
theorem orchestrator_absorbs_provider_failures_witness :
    (run ⟨⟨some "key", .payload none⟩, ⟨some "key2", .failure .timeoutFailure⟩⟩
      ⟨"Python developer", "Requires Python"⟩).state = OrchState.DONE ∧
    (step ⟨⟨some "key", .payload none⟩, ⟨some "key2", .failure .timeoutFailure⟩⟩
      ⟨"Python developer", "Requires Python"⟩
      (step ⟨⟨some "key", .payload none⟩,
             ⟨some "key2", .failure .timeoutFailure⟩⟩
        ⟨"Python developer", "Requires Python"⟩
        ⟨.START, none, []⟩)).state = OrchState.TRY_BACKUP := by
  have h := orchestrator_absorbs_provider_failures
    ⟨⟨some "key", .payload none⟩, ⟨some "key2", .failure .timeoutFailure⟩⟩
    ⟨"Python developer", "Requires Python"⟩ (by decide) (by decide)
  exact ⟨h.1, h.2.2.2 (by decide) rfl⟩

/-- C3: every `AnalysisResult` the orchestrator returns, from any tier, has
a match score in `[0, 100]`. -/
theorem analyze_matchScore_in_range (env : Env) (req : AnalysisRequest)
    (r : AnalysisResult) (h : (Orchestrator.analyze env req).1 = .ok r) :
    0 ≤ r.matchScore ∧ r.matchScore ≤ 100 := by
  by_cases hc : req.resumeText = "" ∨ req.jobDescription = ""
  · unfold Orchestrator.analyze at h
    rw [if_pos hc] at h
    exact Except.noConfusion h
  · obtain ⟨hs, r0, hres, hb1, hb2⟩ := run_inv env req
    unfold Orchestrator.analyze at h
    rw [if_neg hc] at h
    simp [hres] at h
    rw [← h]
    exact ⟨hb1, hb2⟩

/-- C3 witness: a Tier-1 success with a decodable payload of score 50 is
returned with a score inside `[0, 100]`. -/
theorem analyze_matchScore_in_range_witness :
    0 ≤ (⟨50, [], [], "ok", "mail", .PRIMARY⟩ : AnalysisResult).matchScore ∧
    (⟨50, [], [], "ok", "mail", .PRIMARY⟩ : AnalysisResult).matchScore ≤ 100 :=
  analyze_matchScore_in_range
    ⟨⟨some "key",
      .payload (some ⟨some 50, some [], some [], some "ok", some "mail"⟩)⟩,
     ⟨none, .failure .timeoutFailure⟩⟩
    ⟨"Python developer", "Requires Python"⟩
    ⟨50, [], [], "ok", "mail", .PRIMARY⟩ rfl

/-- C6: with no credential on either provider tier, both availability checks
are false, no provider is ever called, the request does not error, and the
returned result is tagged FALLBACK. -/
theorem unconfigured_tiers_fall_back (env : Env) (req : AnalysisRequest)
    (h1 : env.primary.credential = none) (h2 : env.backup.credential = none)
    (hr : req.resumeText ≠ "") (hj : req.jobDescription ≠ "") :
    is_available env.primary = false ∧ is_available env.backup = false ∧
    (Orchestrator.analyze env req).2 = [] ∧
    ∃ r, (Orchestrator.analyze env req).1 = .ok r ∧
      r.sourceTier = .FALLBACK := by
  have hrun := run_no_credentials env req h1 h2
  have hcond : ¬(req.resumeText = "" ∨ req.jobDescription = "") := by
    push_neg
    exact ⟨hr, hj⟩
  refine ⟨by simp [is_available, h1], by simp [is_available, h2], ?_, ?_⟩
  · unfold Orchestrator.analyze
    rw [if_neg hcond]
    simp [hrun]
  · refine ⟨KeywordFallbackAnalyzer.analyze req.resumeText req.jobDescription,
      ?_, rfl⟩
    unfold Orchestrator.analyze
    rw [if_neg hcond]
    simp [hrun]

/-- C6 witness: in an environment with no credentials at all, the analysis
of a concrete valid request makes no provider call and falls back. -/
theorem unconfigured_tiers_fall_back_witness :
    is_available (⟨none, .failure .unknownFailure⟩ : ProviderClient) = false ∧
    is_available (⟨none, .payload none⟩ : ProviderClient) = false ∧
    (Orchestrator.analyze
      ⟨⟨none, .failure .unknownFailure⟩, ⟨none, .payload none⟩⟩
      ⟨"Python developer", "Requires Python and SQL"⟩).2 = [] ∧
    ∃ r, (Orchestrator.analyze
      ⟨⟨none, .failure .unknownFailure⟩, ⟨none, .payload none⟩⟩
      ⟨"Python developer", "Requires Python and SQL"⟩).1 = .ok r ∧
      r.sourceTier = .FALLBACK :=
  unconfigured_tiers_fall_back
    ⟨⟨none, .failure .unknownFailure⟩, ⟨none, .payload none⟩⟩
    ⟨"Python developer", "Requires Python and SQL"⟩
    rfl rfl (by decide) (by decide)

/-- C2: for every pair of texts, the fallback analyzer match score is raised
to at least 60 whenever the raw overlap ratio is at least one half, and is
clamped into `[10, 95]`, hence is never 0 and never 100. -/
theorem fallback_scoring_policy (resume jd : String) :
    10 ≤ (KeywordFallbackAnalyzer.analyze resume jd).matchScore ∧
    (KeywordFallbackAnalyzer.analyze resume jd).matchScore ≤ 95 ∧
    (KeywordFallbackAnalyzer.analyze resume jd).matchScore ≠ 0 ∧
    (KeywordFallbackAnalyzer.analyze resume jd).matchScore ≠ 100 ∧
    ((jobVocabulary jd).length ≤ 2 * (intersectionTerms resume jd).length →
      60 ≤ (KeywordFallbackAnalyzer.analyze resume jd).matchScore) := by
  have hband := fallbackScore_mem_band resume jd
  have heq : (KeywordFallbackAnalyzer.analyze resume jd).matchScore =
      (KeywordFallbackAnalyzer.fallbackScore resume jd : Int) := rfl
  refine ⟨?_, ?_, ?_, ?_, ?_⟩
  · rw [heq]; omega
  · rw [heq]; omega
  · rw [heq]; omega
  · rw [heq]; omega
  · intro h
    have := fallbackScore_floor resume jd h
    rw [heq]; omega

/-- C2 witness: with job description "Requires Python and SQL" and a resume
containing two of the three vocabulary terms, the floor applies and the
score is at least 60. -/
theorem fallback_scoring_policy_witness :
    60 ≤ (KeywordFallbackAnalyzer.analyze
      "Skilled in Python and SQL databases"
      "Requires Python and SQL").matchScore :=
  (fallback_scoring_policy "Skilled in Python and SQL databases"
    "Requires Python and SQL").2.2.2.2 (by decide)

/-- C5: the fallback analyzer is deterministic: equal input pairs yield
identical results in every field, and the result is always tagged with the
FALLBACK tier. -/
theorem fallback_deterministic (r1 j1 r2 j2 : String)
    (hr : r1 = r2) (hj : j1 = j2) :
    KeywordFallbackAnalyzer.analyze r1 j1 =
      KeywordFallbackAnalyzer.analyze r2 j2 ∧
    (KeywordFallbackAnalyzer.analyze r1 j1).matchScore =
      (KeywordFallbackAnalyzer.analyze r2 j2).matchScore ∧
    (KeywordFallbackAnalyzer.analyze r1 j1).keyStrengths =
      (KeywordFallbackAnalyzer.analyze r2 j2).keyStrengths ∧
    (KeywordFallbackAnalyzer.analyze r1 j1).missingSkills =
      (KeywordFallbackAnalyzer.analyze r2 j2).missingSkills ∧
    (KeywordFallbackAnalyzer.analyze r1 j1).summary =
      (KeywordFallbackAnalyzer.analyze r2 j2).summary ∧
    (KeywordFallbackAnalyzer.analyze r1 j1).emailDraft =
      (KeywordFallbackAnalyzer.analyze r2 j2).emailDraft ∧
    (KeywordFallbackAnalyzer.analyze r1 j1).sourceTier = .FALLBACK := by
  subst hr
  subst hj
  exact ⟨rfl, rfl, rfl, rfl, rfl, rfl, rfl⟩

/-- C5 witness: two runs on the concrete pair ("Python developer",
"Requires Python") agree and report the FALLBACK tier. -/
theorem fallback_deterministic_witness :
    KeywordFallbackAnalyzer.analyze "Python developer" "Requires Python" =
      KeywordFallbackAnalyzer.analyze "Python developer" "Requires Python" ∧
    (KeywordFallbackAnalyzer.analyze "Python developer"
      "Requires Python").sourceTier = .FALLBACK := by
  have h := fallback_deterministic "Python developer" "Requires Python"
    "Python developer" "Requires Python" rfl rfl
  exact ⟨h.1, h.2.2.2.2.2.2⟩

/-- C10: the three score-styling helpers classify every score into the same
tier with identical boundaries: green exactly when the score is at least 75,
yellow exactly when it is in `[50, 75)`, red exactly when it is below 50. -/
theorem matchScore_styling_consistent (score : Int) :
    (getMatchScoreColor score = "text-green-500" ↔ 75 ≤ score) ∧
    (getMatchScoreBgColor score = "bg-green-500/10" ↔ 75 ≤ score) ∧
    (getMatchScoreBorderColor score = "border-green-500" ↔ 75 ≤ score) ∧
    (getMatchScoreColor score = "text-yellow-500" ↔ 50 ≤ score ∧ score < 75) ∧
    (getMatchScoreBgColor score = "bg-yellow-500/10" ↔ 50 ≤ score ∧ score < 75) ∧
    (getMatchScoreBorderColor score = "border-yellow-500" ↔
      50 ≤ score ∧ score < 75) ∧
    (getMatchScoreColor score = "text-red-500" ↔ score < 50) ∧
    (getMatchScoreBgColor score = "bg-red-500/10" ↔ score < 50) ∧
    (getMatchScoreBorderColor score = "border-red-500" ↔ score < 50) := by
  unfold getMatchScoreColor getMatchScoreBgColor getMatchScoreBorderColor
  split_ifs with h1 h2 <;> simp <;> omega

/-- C4: empty inputs are rejected before any provider or network call.  In
the frontend, `analyzeCandidate` with no selected file or a whitespace-only
job description sets the guard error and returns without issuing the HTTP
request; in the backend, an empty field yields `InvalidInput` with an empty
provider-call log. -/
theorem invalid_input_rejected_before_any_call (s : AppState)
    (o : HttpOutcome) (env : Env) (req : AnalysisRequest) :
    ((s.resumeFile = none ∨ jsTrim s.jobDescription = "") →
      (analyzeCandidate s o).2 = false ∧
      (analyzeCandidate s o).1.error =
        some "Please upload a resume and enter a job description" ∧
      (analyzeCandidate s o).1.analysisResult = s.analysisResult) ∧
    ((req.resumeText = "" ∨ req.jobDescription = "") →
      Orchestrator.analyze env req = (.error .invalidInput, [])) := by
  constructor
  · intro hguard
    unfold analyzeCandidate
    rw [if_pos hguard]
    exact ⟨rfl, rfl, rfl⟩
  · intro hempty
    unfold Orchestrator.analyze
    rw [if_pos hempty]

/-- C4 witness: a state with no selected file makes no HTTP request, and an
empty resume text yields `InvalidInput` with no provider call. -/
theorem invalid_input_rejected_before_any_call_witness :
    ((analyzeCandidate ⟨none, "some job", false, none, none⟩
        (.failure none)).2 = false ∧
      (analyzeCandidate ⟨none, "some job", false, none, none⟩
        (.failure none)).1.error =
        some "Please upload a resume and enter a job description" ∧
      (analyzeCandidate ⟨none, "some job", false, none, none⟩
        (.failure none)).1.analysisResult = none) ∧
    Orchestrator.analyze
      ⟨⟨some "key", .payload none⟩, ⟨none, .failure .authFailure⟩⟩
      ⟨"", "Requires Python"⟩ = (.error .invalidInput, []) := by
  have h := invalid_input_rejected_before_any_call
    ⟨none, "some job", false, none, none⟩ (.failure none)
    ⟨⟨some "key", .payload none⟩, ⟨none, .failure .authFailure⟩⟩
    ⟨"", "Requires Python"⟩
  exact ⟨h.1 (Or.inl rfl), h.2 (Or.inl rfl)⟩

/-- C7: the response body carries the analysis under the `ai_analysis` key
with exactly the five snake_case fields and no `sourceTier`; on success the
frontend stores exactly `response.data.ai_analysis` as the displayed
analysis result. -/
theorem response_serialization_shape (fn : String) (tl : Nat) (ex : String)
    (r : AnalysisResult) (s : AppState) (resp : HttpResponse)
    (hf : s.resumeFile ≠ none) (hj : jsTrim s.jobDescription ≠ "") :
    jsonLookup "ai_analysis" (serializeResponse fn tl ex r) =
      some (.jobj (serializeAnalysis r)) ∧
    (serializeAnalysis r).map Prod.fst =
      ["match_score", "key_strengths", "missing_skills", "summary",
       "email_draft"] ∧
    "sourceTier" ∉ (serializeAnalysis r).map Prod.fst ∧
    "sourceTier" ∉ (serializeResponse fn tl ex r).map Prod.fst ∧
    (analyzeCandidate s (.success resp)).1.analysisResult =
      some resp.ai_analysis := by
  refine ⟨by simp [serializeResponse, serializeAnalysis, jsonLookup],
    rfl, by simp [serializeAnalysis], by simp [serializeResponse], ?_⟩
  have hguard : ¬(s.resumeFile = none ∨ jsTrim s.jobDescription = "") := by
    push_neg
    exact ⟨hf, hj⟩
  unfold analyzeCandidate
  rw [if_neg hguard]

/-- C7 witness: a concrete result serializes with the five fields under
`ai_analysis`, and a concrete successful request stores its `ai_analysis`
object. -/
theorem response_serialization_shape_witness :
    (serializeAnalysis ⟨75, ["python"], ["sql"], "ok", "mail", .PRIMARY⟩).map
        Prod.fst =
      ["match_score", "key_strengths", "missing_skills", "summary",
       "email_draft"] ∧
    (analyzeCandidate
      ⟨some ⟨"cv.pdf", "application/pdf"⟩, "Requires Python", false, none,
       none⟩
      (.success ⟨⟨75, ["python"], ["sql"], "ok", "mail"⟩⟩)).1.analysisResult =
      some ⟨75, ["python"], ["sql"], "ok", "mail"⟩ := by
  have h := response_serialization_shape "cv.pdf" 100 "text"
    ⟨75, ["python"], ["sql"], "ok", "mail", .PRIMARY⟩
    ⟨some ⟨"cv.pdf", "application/pdf"⟩, "Requires Python", false, none,
     none⟩
    ⟨⟨75, ["python"], ["sql"], "ok", "mail"⟩⟩
    (by decide) (by decide)
  exact ⟨h.2.1, h.2.2.2.2⟩

/-- C8: after `handleFileChange` or `handleDrop`, the stored resume file is
null or a PDF; a missing or non-PDF offer resets the file and sets the
handler error message, and an accepted PDF clears the error. -/
theorem file_selection_invariant (s : AppState) (f : Option FileObj) :
    ((handleFileChange f s).resumeFile = none ∨
      ∃ g, (handleFileChange f s).resumeFile = some g ∧
        g.type = "application/pdf") ∧
    ((handleDrop f s).resumeFile = none ∨
      ∃ g, (handleDrop f s).resumeFile = some g ∧
        g.type = "application/pdf") ∧
    (f = none →
      (handleFileChange f s).resumeFile = none ∧
      (handleFileChange f s).error = some "Please select a valid PDF file" ∧
      (handleDrop f s).resumeFile = none ∧
      (handleDrop f s).error = some "Please drop a valid PDF file") ∧
    (∀ g, f = some g → g.type ≠ "application/pdf" →
      (handleFileChange f s).resumeFile = none ∧
      (handleFileChange f s).error = some "Please select a valid PDF file" ∧
      (handleDrop f s).resumeFile = none ∧
      (handleDrop f s).error = some "Please drop a valid PDF file") ∧
    (∀ g, f = some g → g.type = "application/pdf" →
      (handleFileChange f s).resumeFile = some g ∧
      (handleFileChange f s).error = none ∧
      (handleDrop f s).resumeFile = some g ∧
      (handleDrop f s).error = none) := by
  cases f with
  | none =>
    refine ⟨Or.inl rfl, Or.inl rfl, fun _ => ⟨rfl, rfl, rfl, rfl⟩,
      fun g hg => Option.noConfusion hg, fun g hg => Option.noConfusion hg⟩
  | some g =>
    by_cases ht : g.type = "application/pdf"
    · refine ⟨Or.inr ⟨g, ?_, ht⟩, Or.inr ⟨g, ?_, ht⟩, ?_, ?_, ?_⟩
      · simp [handleFileChange, ht]
      · simp [handleDrop, ht]
      · intro hn
        exact Option.noConfusion hn
      · intro g2 hg2 hne
        rw [Option.some.injEq] at hg2
        subst hg2
        exact absurd ht hne
      · intro g2 hg2 _
        rw [Option.some.injEq] at hg2
        subst hg2
        refine ⟨?_, ?_, ?_, ?_⟩ <;> simp [handleFileChange, handleDrop, ht]
    · refine ⟨Or.inl ?_, Or.inl ?_, ?_, ?_, ?_⟩
      · simp [handleFileChange, ht]
      · simp [handleDrop, ht]
      · intro hn
        exact Option.noConfusion hn
      · intro g2 hg2 _
        rw [Option.some.injEq] at hg2
        subst hg2
        refine ⟨?_, ?_, ?_, ?_⟩ <;> simp [handleFileChange, handleDrop, ht]
      · intro g2 hg2 hpdf
        rw [Option.some.injEq] at hg2
        subst hg2
        exact absurd hpdf ht

/-- C8 witness: a dropped text file is rejected (file reset, error set) and
a selected PDF is accepted (error cleared). -/
theorem file_selection_invariant_witness :
    ((handleDrop (some ⟨"notes.txt", "text/plain"⟩)
        ⟨none, "", false, none, none⟩).resumeFile = none ∧
      (handleDrop (some ⟨"notes.txt", "text/plain"⟩)
        ⟨none, "", false, none, none⟩).error =
        some "Please drop a valid PDF file") ∧
    ((handleFileChange (some ⟨"cv.pdf", "application/pdf"⟩)
        ⟨none, "", false, some "old error", none⟩).resumeFile =
        some ⟨"cv.pdf", "application/pdf"⟩ ∧
      (handleFileChange (some ⟨"cv.pdf", "application/pdf"⟩)
        ⟨none, "", false, some "old error", none⟩).error = none) := by
  have h1 := file_selection_invariant ⟨none, "", false, none, none⟩
    (some ⟨"notes.txt", "text/plain"⟩)
  have h2 := file_selection_invariant ⟨none, "", false, some "old error", none⟩
    (some ⟨"cv.pdf", "application/pdf"⟩)
  have hrej := h1.2.2.2.1 ⟨"notes.txt", "text/plain"⟩ rfl (by decide)
  have hacc := h2.2.2.2.2 ⟨"cv.pdf", "application/pdf"⟩ rfl rfl
  exact ⟨⟨hrej.2.2.1, hrej.2.2.2⟩, ⟨hacc.1, hacc.2.1⟩⟩

/-- C9: once the input guard passes, `analyzeCandidate` ends with loading
false; a failed request ends with the backend detail (or the generic
message) as the error and no result; a successful request ends with the
`ai_analysis` object as the result and no error; never both an error and a
result. -/
theorem analyzeCandidate_outcome_consistency (s : AppState) (o : HttpOutcome)
    (hf : s.resumeFile ≠ none) (hj : jsTrim s.jobDescription ≠ "") :
    (analyzeCandidate s o).1.loading = false ∧
    (∀ d, o = .failure d →
      (analyzeCandidate s o).1.error =
        some (jsOrElse d "Failed to analyze resume. Please try again.") ∧
      (analyzeCandidate s o).1.error ≠ none ∧
      (analyzeCandidate s o).1.analysisResult = none) ∧
    (∀ resp, o = .success resp →
      (analyzeCandidate s o).1.analysisResult = some resp.ai_analysis ∧
      (analyzeCandidate s o).1.error = none) ∧
    ¬((analyzeCandidate s o).1.error ≠ none ∧
      (analyzeCandidate s o).1.analysisResult ≠ none) := by
  have hguard : ¬(s.resumeFile = none ∨ jsTrim s.jobDescription = "") := by
    push_neg
    exact ⟨hf, hj⟩
  cases o with
  | success resp =>
    unfold analyzeCandidate
    rw [if_neg hguard]
    refine ⟨rfl, ?_, ?_, ?_⟩
    · intro d hd
      exact HttpOutcome.noConfusion hd
    · intro resp2 hresp
      rw [HttpOutcome.success.injEq] at hresp
      subst hresp
      exact ⟨rfl, rfl⟩
    · intro hcontra
      exact hcontra.1 rfl
  | failure d =>
    unfold analyzeCandidate
    rw [if_neg hguard]
    refine ⟨rfl, ?_, ?_, ?_⟩
    · intro d2 hd
      rw [HttpOutcome.failure.injEq] at hd
      subst hd
      exact ⟨rfl, by simp, rfl⟩
    · intro resp2 hresp
      exact HttpOutcome.noConfusion hresp
    · intro hcontra
      exact hcontra.2 rfl

/-- C9 witness: with a selected PDF and a non-blank job description, a
failed request with no backend detail ends with the generic error, no
result, and loading false. -/
theorem analyzeCandidate_outcome_consistency_witness :
    (analyzeCandidate
      ⟨some ⟨"cv.pdf", "application/pdf"⟩, "Requires Python", true, none,
       none⟩
      (.failure none)).1.loading = false ∧
    (analyzeCandidate
      ⟨some ⟨"cv.pdf", "application/pdf"⟩, "Requires Python", true, none,
       none⟩
      (.failure none)).1.error =
      some "Failed to analyze resume. Please try again." := by
  have h := analyzeCandidate_outcome_consistency
    ⟨some ⟨"cv.pdf", "application/pdf"⟩, "Requires Python", true, none, none⟩
    (.failure none) (by decide) (by decide)
  exact ⟨h.1, (h.2.1 none rfl).1⟩

end SmartHire
